import Mathlib

/-!
Shallow embedding of `src/app.py` (haks-shop): a Flask + PostgreSQL e-commerce
backend.  The database is modelled as lists of rows; each HTTP handler becomes a
pure function from its parsed inputs and the database state to an `HResult`
carrying the handler outcome (`Except Exn Response`: `.error` means an uncaught
Python exception propagates out of the handler), the post-state of the database,
the trace of connection events (acquire/close, mirroring
`conn = get_db_connection()` and the `finally: cur.close(); conn.close()`
blocks), and the server-side log (lines written by `print`).

Persistence failures other than the unique-constraint violation (which is
derived from the state itself) are injected through a `fault : Option String`
parameter standing for an arbitrary `psycopg2` exception with message `msg`
raised by the SQL statement inside the `try` block.

`werkzeug.security.generate_password_hash` / `check_password_hash` are modelled
by an abstract `Crypto` structure; calling `check_password_hash` with a `None`
password (possible in `admin_login`, which has no presence check) raises, which
is modelled by `Exn.typeError`.
-/

namespace HaksShop

/-- JSON scalar values appearing in response bodies. -/
inductive JVal where
  | s (v : String)
  | n (v : Rat)
  | i (v : Int)
  | b (v : Bool)
deriving Repr, DecidableEq

/-- A JSON object: field name / value pairs, in serialization order. -/
abbrev JObj := List (String × JVal)

/-- A response body: either a single JSON object or an array of objects. -/
inductive Body where
  | obj (o : JObj)
  | arr (l : List JObj)
deriving Repr, DecidableEq

/-- An HTTP response: JSON body plus status code, as returned by
`return jsonify(...), status`. -/
structure Response where
  body : Body
  status : Nat
deriving Repr, DecidableEq

/-- Python exceptions relevant to the handlers. -/
inductive Exn where
  | uniqueViolation
  | typeError
  | exnMsg (msg : String)
deriving Repr, DecidableEq

/-- Connection lifecycle events: `conn = get_db_connection()` and
`conn.close()`. -/
inductive Event where
  | acquire
  | close
deriving Repr, DecidableEq

/-- Row of the `users` table. -/
structure User where
  id : Nat
  name : String
  email : String
  password : String
  is_admin : Bool
deriving Repr, DecidableEq

/-- Row of the `products` table. -/
structure Product where
  id : Nat
  name : String
  category : String
  price : Rat
  image_url : String
deriving Repr, DecidableEq

/-- Row of the `cart` table. -/
structure CartItem where
  id : Nat
  user_id : Nat
  product_id : Nat
  quantity : Int
deriving Repr, DecidableEq

/-- Row of the `orders` table; `created_at` is a timestamp. -/
structure OrderRow where
  id : Nat
  user_id : Nat
  total_amount : Rat
  status : String
  created_at : Nat
deriving Repr, DecidableEq

/-- The whole database; `nextId` generates fresh primary keys for inserts. -/
structure DB where
  users : List User
  products : List Product
  cart : List CartItem
  orders : List OrderRow
  nextId : Nat
deriving Repr, DecidableEq

/-- The credential codec (`generate_password_hash` / `check_password_hash`),
kept abstract: any salted hash scheme. -/
structure Crypto where
  hash : String → String
  verify : String → String → Bool

/-- Result of running one handler. -/
structure HResult where
  result : Except Exn Response
  db : DB
  trace : List Event
  log : List String
deriving Repr

/-- Python truthiness of an optional string (`None` and `""` are falsy). -/
def truthyStr : Option String → Bool
  | none => false
  | some s => s != ""

/-- Python truthiness of an optional integer (`None` and `0` are falsy). -/
def truthyNat : Option Nat → Bool
  | none => false
  | some n => n != 0

/-- Models `get_db_connection()`: raises when `DATABASE_URL` is unset. -/
def get_db_connection (env : Option String) : Except Exn Unit :=
  match env with
  | none => .error (.exnMsg "DATABASE_URL environment variable not set")
  | some _ => .ok ()

/-- Models `check_password_hash(stored, password)`: with a `None` password the
underlying hash routine raises (`None` has no `encode`). -/
def checkPasswordHash (crypto : Crypto) (stored : String) (password : Option String) :
    Except Exn Bool :=
  match password with
  | none => .error .typeError
  | some p => .ok (crypto.verify stored p)

/-- Handler for `GET /`. -/
def home (db : DB) : HResult :=
  ⟨.ok ⟨.obj [("status", .s "Backend is running")], 200⟩, db, [], []⟩

/-- Handler for `POST /signup`.  Validates presence, hashes the password,
inserts the user; a duplicate email raises `UniqueViolation` (caught: 400,
rollback), any other failure is caught: logged and mapped to a generic 500. -/
def signup (env : Option String) (crypto : Crypto)
    (name email password : Option String) (fault : Option String) (db : DB) : HResult :=
  if !(truthyStr name && truthyStr email && truthyStr password) then
    ⟨.ok ⟨.obj [("error", .s "All fields required")], 400⟩, db, [], []⟩
  else
    match get_db_connection env with
    | .error e => ⟨.error e, db, [], []⟩
    | .ok _ =>
      let nm := name.getD ""
      let em := email.getD ""
      let hashed := crypto.hash (password.getD "")
      match fault with
      | some msg =>
        ⟨.ok ⟨.obj [("error", .s "Signup failed")], 500⟩, db,
         [.acquire, .close], ["Error: " ++ msg]⟩
      | none =>
        if db.users.any (fun u => u.email == em) then
          ⟨.ok ⟨.obj [("error", .s "Email already exists")], 400⟩, db,
           [.acquire, .close], []⟩
        else
          ⟨.ok ⟨.obj [("message", .s "Signup successful")], 201⟩,
           { db with users := db.users ++ [⟨db.nextId, nm, em, hashed, false⟩],
                     nextId := db.nextId + 1 },
           [.acquire, .close], []⟩

/-- Handler for `POST /login`.  Validates presence, looks the user up by email,
verifies the password; both a missing user and a failed verification fall into
the same `else` branch. -/
def login (env : Option String) (crypto : Crypto)
    (email password : Option String) (fault : Option String) (db : DB) : HResult :=
  if !(truthyStr email) || !(truthyStr password) then
    ⟨.ok ⟨.obj [("error", .s "Email and password required")], 400⟩, db, [], []⟩
  else
    match get_db_connection env with
    | .error e => ⟨.error e, db, [], []⟩
    | .ok _ =>
      match fault with
      | some msg => ⟨.error (.exnMsg msg), db, [.acquire, .close], []⟩
      | none =>
        match db.users.find? (fun u => some u.email == email) with
        | some u =>
          if crypto.verify u.password (password.getD "") then
            ⟨.ok ⟨.obj [("user_id", .i (u.id : Int)), ("name", .s u.name),
                        ("message", .s "Login successful")], 200⟩, db,
             [.acquire, .close], []⟩
          else
            ⟨.ok ⟨.obj [("error", .s "Invalid email or password")], 401⟩, db,
             [.acquire, .close], []⟩
        | none =>
          ⟨.ok ⟨.obj [("error", .s "Invalid email or password")], 401⟩, db,
           [.acquire, .close], []⟩

/-- One row of the `GET /products` response. -/
def productRow (p : Product) : JObj :=
  [("id", .i (p.id : Int)), ("name", .s p.name), ("price", .n p.price),
   ("category", .s p.category), ("image_url", .s p.image_url)]

/-- Handler for `GET /products`: optional category filter. -/
def get_products (env : Option String) (category : Option String)
    (fault : Option String) (db : DB) : HResult :=
  match get_db_connection env with
  | .error e => ⟨.error e, db, [], []⟩
  | .ok _ =>
    match fault with
    | some msg => ⟨.error (.exnMsg msg), db, [.acquire, .close], []⟩
    | none =>
      let rows :=
        if truthyStr category then
          db.products.filter (fun p => some p.category == category)
        else db.products
      ⟨.ok ⟨.arr (rows.map productRow), 200⟩, db, [.acquire, .close], []⟩

/-- Handler for `POST /add-to-cart`: reads the existing row for
`(user_id, product_id)`; if present, `UPDATE cart SET quantity = existing + q
WHERE id = existing.id`; otherwise inserts a new row.  Any failure is caught:
logged, rollback, generic 500. -/
def add_to_cart (env : Option String) (user_id product_id : Option Nat)
    (quantity : Option Int) (fault : Option String) (db : DB) : HResult :=
  let qty := quantity.getD 1
  if !(truthyNat user_id && truthyNat product_id) then
    ⟨.ok ⟨.obj [("error", .s "user_id and product_id required")], 400⟩, db, [], []⟩
  else
    match get_db_connection env with
    | .error e => ⟨.error e, db, [], []⟩
    | .ok _ =>
      match fault with
      | some msg =>
        ⟨.ok ⟨.obj [("error", .s "Error adding to cart")], 500⟩, db,
         [.acquire, .close], ["Error: " ++ msg]⟩
      | none =>
        let uid := user_id.getD 0
        let pid := product_id.getD 0
        match db.cart.find? (fun c => c.user_id == uid && c.product_id == pid) with
        | some c =>
          ⟨.ok ⟨.obj [("message", .s "Product added to cart")], 200⟩,
           { db with cart := db.cart.map (fun r =>
               if r.id == c.id then { r with quantity := c.quantity + qty } else r) },
           [.acquire, .close], []⟩
        | none =>
          ⟨.ok ⟨.obj [("message", .s "Product added to cart")], 200⟩,
           { db with cart := db.cart ++ [⟨db.nextId, uid, pid, qty⟩],
                     nextId := db.nextId + 1 },
           [.acquire, .close], []⟩

/-- One row of the `GET /cart` response, built from a cart row and the joined
product row. -/
def cartRow (c : CartItem) (p : Product) : JObj :=
  [("id", .i (c.id : Int)), ("name", .s p.name), ("price", .n p.price),
   ("image_url", .s p.image_url), ("quantity", .i c.quantity)]

/-- The SQL of `GET /cart`: `FROM cart c JOIN products p ON c.product_id = p.id
WHERE c.user_id = uid`. -/
def cartJoin (cart : List CartItem) (products : List Product) (uid : Nat) : List JObj :=
  cart.flatMap (fun c =>
    if c.user_id == uid then
      (products.filter (fun p => p.id == c.product_id)).map (fun p => cartRow c p)
    else [])

/-- Handler for `GET /cart` (the numeric query parameter is modelled as
`Option Nat`). -/
def get_cart (env : Option String) (user_id : Option Nat)
    (fault : Option String) (db : DB) : HResult :=
  match user_id with
  | none => ⟨.ok ⟨.obj [("error", .s "user_id required")], 400⟩, db, [], []⟩
  | some uid =>
    match get_db_connection env with
    | .error e => ⟨.error e, db, [], []⟩
    | .ok _ =>
      match fault with
      | some msg => ⟨.error (.exnMsg msg), db, [.acquire, .close], []⟩
      | none =>
        ⟨.ok ⟨.arr (cartJoin db.cart db.products uid), 200⟩, db,
         [.acquire, .close], []⟩

/-- Handler for `POST /admin/login`.  No presence check on email or password;
`email = NULL` matches no user; short-circuit `user and check_password_hash(...)`
means the password check only runs when a user was found, and an exception from
it propagates (there is no `except` clause — only the `finally`). -/
def admin_login (env : Option String) (crypto : Crypto)
    (email password : Option String) (fault : Option String) (db : DB) : HResult :=
  match get_db_connection env with
  | .error e => ⟨.error e, db, [], []⟩
  | .ok _ =>
    match fault with
    | some msg => ⟨.error (.exnMsg msg), db, [.acquire, .close], []⟩
    | none =>
      match db.users.find? (fun u => some u.email == email) with
      | some u =>
        match checkPasswordHash crypto u.password password with
        | .error e => ⟨.error e, db, [.acquire, .close], []⟩
        | .ok true =>
          if u.is_admin then
            ⟨.ok ⟨.obj [("admin_id", .i (u.id : Int)), ("name", .s u.name),
                        ("token", .s "admin_secret_token")], 200⟩, db,
             [.acquire, .close], []⟩
          else
            ⟨.ok ⟨.obj [("error", .s "Access Denied: Admins only")], 403⟩, db,
             [.acquire, .close], []⟩
        | .ok false =>
          ⟨.ok ⟨.obj [("error", .s "Invalid credentials")], 401⟩, db,
           [.acquire, .close], []⟩
      | none =>
        ⟨.ok ⟨.obj [("error", .s "Invalid credentials")], 401⟩, db,
         [.acquire, .close], []⟩

/-- `SELECT SUM(total_amount) FROM orders`: SQL `SUM` is `NULL` on an empty
table, a value otherwise. -/
def sqlSum (l : List Rat) : Option Rat :=
  if l.isEmpty then none else some l.sum

/-- Handler for `GET /admin/stats`: `COALESCE(SUM(total_amount), 0)`,
`COUNT(*)` on orders, `COUNT(*)` on products. -/
def admin_stats (env : Option String) (fault : Option String) (db : DB) : HResult :=
  match get_db_connection env with
  | .error e => ⟨.error e, db, [], []⟩
  | .ok _ =>
    match fault with
    | some msg => ⟨.error (.exnMsg msg), db, [.acquire, .close], []⟩
    | none =>
      let revenue := (sqlSum (db.orders.map (fun o => o.total_amount))).getD 0
      ⟨.ok ⟨.obj [("revenue", .n revenue),
                  ("orders", .i (db.orders.length : Int)),
                  ("products", .i (db.products.length : Int))], 200⟩, db,
       [.acquire, .close], []⟩

/-- Handler for `POST`/`DELETE /admin/product`.  POST reads the body with
`data['k']` subscripts (a missing key raises `KeyError`, caught below); the
`except Exception` clause returns `str(e)` in the body with status 500 and
prints nothing. -/
def manage_product (env : Option String) (isPost : Bool)
    (name category : Option String) (price : Option Rat) (image_url : Option String)
    (delId : Option Nat) (fault : Option String) (db : DB) : HResult :=
  match get_db_connection env with
  | .error e => ⟨.error e, db, [], []⟩
  | .ok _ =>
    if isPost then
      match name, category, price, image_url with
      | some nm, some cat, some pr, some img =>
        match fault with
        | some msg =>
          ⟨.ok ⟨.obj [("error", .s msg)], 500⟩, db, [.acquire, .close], []⟩
        | none =>
          ⟨.ok ⟨.obj [("message", .s "Product created")], 201⟩,
           { db with products := db.products ++ [⟨db.nextId, nm, cat, pr, img⟩],
                     nextId := db.nextId + 1 },
           [.acquire, .close], []⟩
      | _, _, _, _ =>
        let key :=
          if name.isNone then "name"
          else if category.isNone then "category"
          else if price.isNone then "price" else "image_url"
        ⟨.ok ⟨.obj [("error", .s key)], 500⟩, db, [.acquire, .close], []⟩
    else
      match fault with
      | some msg =>
        ⟨.ok ⟨.obj [("error", .s msg)], 500⟩, db, [.acquire, .close], []⟩
      | none =>
        ⟨.ok ⟨.obj [("message", .s "Product deleted")], 200⟩,
         { db with products := db.products.filter (fun p => !(some p.id == delId)) },
         [.acquire, .close], []⟩

/-- The inner join of `GET /admin/orders`:
`FROM orders o JOIN users u ON o.user_id = u.id`. -/
def ordersJoin (db : DB) : List (OrderRow × User) :=
  db.orders.flatMap (fun o =>
    (db.users.filter (fun u => u.id == o.user_id)).map (fun u => (o, u)))

/-- `ORDER BY o.created_at DESC` applied to the join. -/
def ordersSorted (db : DB) : List (OrderRow × User) :=
  (ordersJoin db).mergeSort (fun a b => b.1.created_at ≤ a.1.created_at)

/-- One row of the `GET /admin/orders` response. -/
def orderRowJson (x : OrderRow × User) : JObj :=
  [("id", .i (x.1.id : Int)), ("customer", .s x.2.name),
   ("amount", .n x.1.total_amount), ("status", .s x.1.status),
   ("date", .i (x.1.created_at : Int))]

/-- The full `GET /admin/orders` result list. -/
def listOrdersRows (db : DB) : List JObj :=
  (ordersSorted db).map orderRowJson

/-- Handler for `GET`/`PUT /admin/orders`.  No `except` clause: failures
propagate after the `finally`.  PUT reads `data['status']` then
`data['order_id']` (KeyError on a missing key propagates). -/
def manage_orders (env : Option String) (isGet : Bool)
    (order_id : Option Nat) (status : Option String)
    (fault : Option String) (db : DB) : HResult :=
  match get_db_connection env with
  | .error e => ⟨.error e, db, [], []⟩
  | .ok _ =>
    match fault with
    | some msg => ⟨.error (.exnMsg msg), db, [.acquire, .close], []⟩
    | none =>
      if isGet then
        ⟨.ok ⟨.arr (listOrdersRows db), 200⟩, db, [.acquire, .close], []⟩
      else
        match status, order_id with
        | some st, some oid =>
          ⟨.ok ⟨.obj [("message", .s "Order updated")], 200⟩,
           { db with orders := db.orders.map (fun o =>
               if o.id == oid then { o with status := st } else o) },
           [.acquire, .close], []⟩
        | _, _ =>
          ⟨.error (.exnMsg (if status.isNone then "KeyError status"
                            else "KeyError order_id")), db,
           [.acquire, .close], []⟩

/-! ### Concrete fixtures used by closed instances -/

/-- A concrete credential codec used in closed instances: `hash p = "h:" ++ p`,
`verify stored p` checks `stored == "h:" ++ p`. -/
def demoCrypto : Crypto :=
  ⟨fun p => "h:" ++ p, fun stored p => stored == "h:" ++ p⟩

/-- A concrete database with two users (one admin) and one product. -/
def demoDb : DB :=
  { users := [⟨1, "Alice", "alice1@shop.com", "h:pw1", false⟩,
              ⟨2, "Bob", "bob2@shop.com", "h:pw2", true⟩],
    products := [⟨3, "Mug", "kitchen", 5, "mug.png"⟩],
    cart := [],
    orders := [],
    nextId := 10 }

/-- Python truthiness of `some s` reduces to `s` being nonempty. -/
theorem truthyStr_some {s : String} (h : s ≠ "") : truthyStr (some s) = true := by
  simp [truthyStr, h]

/-! ### Claims -/

/-- C2: a signup whose insert violates the unique constraint on email (the
email already belongs to an existing user) answers 400 with a duplicate-email
error, and the insert is rolled back: the database is unchanged, so no second
row with that email appears. -/
theorem signup_duplicate_email (url : String) (crypto : Crypto)
    (name email password : Option String) (db : DB)
    (hn : truthyStr name = true) (he : truthyStr email = true)
    (hp : truthyStr password = true)
    (hdup : db.users.any (fun u => u.email == email.getD "") = true) :
    (signup (some url) crypto name email password none db).result
      = .ok ⟨.obj [("error", .s "Email already exists")], 400⟩ ∧
    (signup (some url) crypto name email password none db).db = db := by
  constructor <;> simp [signup, hn, he, hp, get_db_connection, hdup]

/-- C2 witness: signing up with an email already present in `demoDb`. -/
theorem signup_duplicate_email_witness :
    (signup (some "postgres") demoCrypto (some "Carol") (some "alice1@shop.com")
        (some "pw") none demoDb).result
      = .ok ⟨.obj [("error", .s "Email already exists")], 400⟩ ∧
    (signup (some "postgres") demoCrypto (some "Carol") (some "alice1@shop.com")
        (some "pw") none demoDb).db = demoDb :=
  signup_duplicate_email "postgres" demoCrypto (some "Carol") (some "alice1@shop.com")
    (some "pw") demoDb (by decide) (by decide) (by decide) (by decide)

/-- C4: adminLogin with a found user and a successful password check answers
403 ("Access Denied: Admins only") when `is_admin` is false, and 200 with
`admin_id`, `name` and the token when `is_admin` is true. -/
theorem admin_login_role_check (url : String) (crypto : Crypto) (e p : String)
    (db : DB) (u : User)
    (hfound : db.users.find? (fun x => x.email == e) = some u)
    (hok : crypto.verify u.password p = true) :
    (u.is_admin = false →
      (admin_login (some url) crypto (some e) (some p) none db).result
        = .ok ⟨.obj [("error", .s "Access Denied: Admins only")], 403⟩) ∧
    (u.is_admin = true →
      (admin_login (some url) crypto (some e) (some p) none db).result
        = .ok ⟨.obj [("admin_id", .i (u.id : Int)), ("name", .s u.name),
                     ("token", .s "admin_secret_token")], 200⟩) := by
  constructor <;> intro h <;>
    simp [admin_login, get_db_connection, hfound, checkPasswordHash, hok, h]

/-- C4 witness: Alice (not an admin) gets 403; Bob (admin) gets 200 with the
token. -/
theorem admin_login_role_check_witness :
    (admin_login (some "postgres") demoCrypto (some "alice1@shop.com") (some "pw1")
        none demoDb).result
      = .ok ⟨.obj [("error", .s "Access Denied: Admins only")], 403⟩ ∧
    (admin_login (some "postgres") demoCrypto (some "bob2@shop.com") (some "pw2")
        none demoDb).result
      = .ok ⟨.obj [("admin_id", .i 2), ("name", .s "Bob"),
                   ("token", .s "admin_secret_token")], 200⟩ :=
  ⟨(admin_login_role_check "postgres" demoCrypto "alice1@shop.com" "pw1" demoDb
      ⟨1, "Alice", "alice1@shop.com", "h:pw1", false⟩ (by decide) (by decide)).1 rfl,
   (admin_login_role_check "postgres" demoCrypto "bob2@shop.com" "pw2" demoDb
      ⟨2, "Bob", "bob2@shop.com", "h:pw2", true⟩ (by decide) (by decide)).2 rfl⟩

/-- C8: adminStats answers 200 with revenue equal to the sum of `total_amount`
over all order rows, the count of order rows, and the count of product rows;
for a database whose orders table is empty the revenue field is exactly the
number 0. -/
theorem admin_stats_totals (url : String) (db : DB) :
    (admin_stats (some url) none db).result
      = .ok ⟨.obj [("revenue", .n ((db.orders.map (fun o => o.total_amount)).sum)),
                   ("orders", .i (db.orders.length : Int)),
                   ("products", .i (db.products.length : Int))], 200⟩ ∧
    (∀ (us : List User) (ps : List Product) (cs : List CartItem) (n : Nat),
      (admin_stats (some url) none ⟨us, ps, cs, [], n⟩).result
        = .ok ⟨.obj [("revenue", .n 0), ("orders", .i 0),
                     ("products", .i (ps.length : Int))], 200⟩) := by
  constructor
  · have h : (sqlSum (db.orders.map (fun o => o.total_amount))).getD 0
        = (db.orders.map (fun o => o.total_amount)).sum := by
      cases db.orders with
      | nil => simp [sqlSum]
      | cons o rest => simp [sqlSum]
    simp [admin_stats, get_db_connection, h]
  · intro us ps cs n
    simp [admin_stats, get_db_connection, sqlSum]

/-- C10 (amended): adminLogin performs no presence check; a missing email
matches no user and yields 401, as does a missing password for an email that
matches no user; but a missing password combined with an email that does match
an existing user reaches the password check, which raises (propagated out of
the handler, surfacing as a 500), not 401. -/
theorem admin_login_missing_inputs (url : String) (crypto : Crypto) (db : DB) :
    (∀ pw : Option String,
      (admin_login (some url) crypto none pw none db).result
        = .ok ⟨.obj [("error", .s "Invalid credentials")], 401⟩) ∧
    (∀ e : String, db.users.find? (fun x => x.email == e) = none →
      (admin_login (some url) crypto (some e) none none db).result
        = .ok ⟨.obj [("error", .s "Invalid credentials")], 401⟩) ∧
    (∀ (e : String) (u : User),
      db.users.find? (fun x => x.email == e) = some u →
      (admin_login (some url) crypto (some e) none none db).result
        = .error .typeError) := by
  refine ⟨fun pw => ?_, fun e he => ?_, fun e u hu => ?_⟩
  · have h : db.users.find? (fun _ : User => false) = none := by
      simp [List.find?_eq_none]
    simp [admin_login, get_db_connection, h]
  · simp [admin_login, get_db_connection, he]
  · simp [admin_login, get_db_connection, hu, checkPasswordHash]

/-- C10 witness: missing email gives 401; an email matching no user with a
missing password gives 401; an email matching Alice with a missing password
raises. -/
theorem admin_login_missing_inputs_witness :
    (admin_login (some "postgres") demoCrypto none (some "pw") none demoDb).result
      = .ok ⟨.obj [("error", .s "Invalid credentials")], 401⟩ ∧
    (admin_login (some "postgres") demoCrypto (some "nobody@shop.com") none
        none demoDb).result
      = .ok ⟨.obj [("error", .s "Invalid credentials")], 401⟩ ∧
    (admin_login (some "postgres") demoCrypto (some "alice1@shop.com") none
        none demoDb).result = .error .typeError :=
  ⟨(admin_login_missing_inputs "postgres" demoCrypto demoDb).1 (some "pw"),
   (admin_login_missing_inputs "postgres" demoCrypto demoDb).2.1 "nobody@shop.com"
     (by decide),
   (admin_login_missing_inputs "postgres" demoCrypto demoDb).2.2 "alice1@shop.com"
     ⟨1, "Alice", "alice1@shop.com", "h:pw1", false⟩ (by decide)⟩

/-- C10 counterexample: an adminLogin call with a missing password whose email
matches an existing user does not answer 401 — the password check raises and
the exception propagates out of the handler. -/
theorem admin_login_none_password_crash :
    (admin_login (some "postgres") demoCrypto (some "alice1@shop.com") none
        none demoDb).result = .error .typeError ∧
    (admin_login (some "postgres") demoCrypto (some "alice1@shop.com") none
        none demoDb).result
      ≠ .ok ⟨.obj [("error", .s "Invalid credentials")], 401⟩ := by
  constructor
  · rfl
  · intro h
    simp [admin_login, get_db_connection, demoDb, demoCrypto, checkPasswordHash] at h

/-- C3: two failing login calls with all fields present — one where no user
has the given email, one where the user exists but password verification
fails — produce identical responses: the same 401 status with the same
generic body, so the two causes cannot be told apart from the response. -/
theorem login_failures_indistinguishable
    (url1 url2 : String) (crypto1 crypto2 : Crypto)
    (e1 p1 e2 p2 : String) (db1 db2 : DB) (u : User)
    (he1 : e1 ≠ "") (hp1 : p1 ≠ "") (he2 : e2 ≠ "") (hp2 : p2 ≠ "")
    (habsent : db1.users.find? (fun x => x.email == e1) = none)
    (hfound : db2.users.find? (fun x => x.email == e2) = some u)
    (hbad : crypto2.verify u.password p2 = false) :
    (login (some url1) crypto1 (some e1) (some p1) none db1).result
      = (login (some url2) crypto2 (some e2) (some p2) none db2).result ∧
    (login (some url2) crypto2 (some e2) (some p2) none db2).result
      = .ok ⟨.obj [("error", .s "Invalid email or password")], 401⟩ := by
  have t1 := truthyStr_some he1
  have t2 := truthyStr_some hp1
  have t3 := truthyStr_some he2
  have t4 := truthyStr_some hp2
  constructor <;>
    simp [login, get_db_connection, t1, t2, t3, t4, habsent, hfound, hbad]

/-- C3 witness: a nonexistent email and Alice's email with a wrong password
give the same 401 response on `demoDb`. -/
theorem login_failures_indistinguishable_witness :
    (login (some "postgres") demoCrypto (some "nobody@shop.com") (some "pw")
        none demoDb).result
      = (login (some "postgres") demoCrypto (some "alice1@shop.com") (some "wrong")
          none demoDb).result ∧
    (login (some "postgres") demoCrypto (some "alice1@shop.com") (some "wrong")
        none demoDb).result
      = .ok ⟨.obj [("error", .s "Invalid email or password")], 401⟩ :=
  login_failures_indistinguishable "postgres" "postgres" demoCrypto demoCrypto
    "nobody@shop.com" "pw" "alice1@shop.com" "wrong" demoDb demoDb
    ⟨1, "Alice", "alice1@shop.com", "h:pw1", false⟩
    (by decide) (by decide) (by decide) (by decide) (by decide) (by decide)
    (by decide)

/-- C7: listOrders answers 200 with the inner join of orders and users, sorted
by `created_at` descending: the returned sequence is pairwise ordered most
recent first and is a permutation of the join. -/
theorem list_orders_sorted_desc (url : String) (db : DB) :
    (manage_orders (some url) true none none none db).result
      = .ok ⟨.arr (listOrdersRows db), 200⟩ ∧
    (ordersSorted db).Pairwise (fun a b => b.1.created_at ≤ a.1.created_at) ∧
    (ordersSorted db).Perm (ordersJoin db) ∧
    listOrdersRows db = (ordersSorted db).map orderRowJson := by
  refine ⟨?_, ?_, ?_, rfl⟩
  · simp [manage_orders, get_db_connection]
  · have h := @List.sorted_mergeSort (OrderRow × User)
      (fun a b => decide (b.1.created_at ≤ a.1.created_at))
      (fun a b c hab hbc => by
        simp only [decide_eq_true_eq] at hab hbc ⊢
        exact Nat.le_trans hbc hab)
      (fun a b => by
        simp only [Bool.or_eq_true, decide_eq_true_eq]
        exact Nat.le_total _ _)
      (ordersJoin db)
    exact h.imp (fun hab => by simpa using hab)
  · exact List.mergeSort_perm (ordersJoin db) _

/-- The cart/products join is unchanged when cart rows whose product does not
exist are removed first: orphan rows contribute nothing. -/
theorem cartJoin_filter_orphans (cart : List CartItem) (products : List Product)
    (uid : Nat) :
    cartJoin cart products uid
      = cartJoin (cart.filter
          (fun c => products.any (fun p => p.id == c.product_id)))
          products uid := by
  induction cart with
  | nil => rfl
  | cons c rest ih =>
    by_cases hc : products.any (fun p => p.id == c.product_id) = true
    · simp [cartJoin, List.flatMap_cons, List.filter_cons, hc] at ih ⊢
      exact ih
    · have hfil : products.filter (fun p => p.id == c.product_id) = [] := by
        rw [List.filter_eq_nil_iff]
        intro p hp
        have hfalse := List.any_eq_false.mp (Bool.not_eq_true _ ▸ hc) p hp
        simpa using hfalse
      simp [cartJoin, List.flatMap_cons, List.filter_cons, hc, hfil] at ih ⊢
      exact ih

/-- C9: getCart answers 200 with the inner join of the cart and the products:
every returned row comes from a cart row of the user paired with an existing
product row, and a cart row whose product does not exist is silently omitted
(the join is unchanged when such rows are removed first). -/
theorem get_cart_inner_join (url : String) (uid : Nat) (db : DB) :
    (get_cart (some url) (some uid) none db).result
      = .ok ⟨.arr (cartJoin db.cart db.products uid), 200⟩ ∧
    (∀ row ∈ cartJoin db.cart db.products uid, ∃ c ∈ db.cart, ∃ p ∈ db.products,
      c.user_id = uid ∧ p.id = c.product_id ∧ row = cartRow c p) ∧
    cartJoin db.cart db.products uid
      = cartJoin (db.cart.filter
          (fun c => db.products.any (fun p => p.id == c.product_id)))
          db.products uid := by
  refine ⟨?_, ?_, cartJoin_filter_orphans db.cart db.products uid⟩
  · simp [get_cart, get_db_connection]
  · intro row hrow
    rw [cartJoin, List.mem_flatMap] at hrow
    obtain ⟨c, hc, hrow⟩ := hrow
    cases hcu : (c.user_id == uid) with
    | false => simp [hcu] at hrow
    | true =>
      simp only [hcu, if_true] at hrow
      rw [List.mem_map] at hrow
      obtain ⟨p, hp, hrowEq⟩ := hrow
      rw [List.mem_filter] at hp
      exact ⟨c, hc, p, hp.1, by simpa using hcu, by simpa using hp.2, hrowEq.symm⟩

/-- A database with a cart holding one row whose product exists and one orphan
row referencing a deleted product. -/
def demoCartDb : DB :=
  { demoDb with cart := [⟨4, 7, 3, 2⟩, ⟨5, 7, 99, 1⟩] }

/-- C9 witness: on `demoCartDb`, the handler returns the join, the mug row of
user 7 comes from an existing product, and the orphan row (product 99) is
dropped by the join. -/
theorem get_cart_inner_join_witness :
    (get_cart (some "postgres") (some 7) none demoCartDb).result
      = .ok ⟨.arr (cartJoin demoCartDb.cart demoCartDb.products 7), 200⟩ ∧
    (∃ c ∈ demoCartDb.cart, ∃ p ∈ demoCartDb.products,
      c.user_id = 7 ∧ p.id = c.product_id ∧
      cartRow ⟨4, 7, 3, 2⟩ ⟨3, "Mug", "kitchen", 5, "mug.png"⟩ = cartRow c p) ∧
    cartJoin demoCartDb.cart demoCartDb.products 7
      = cartJoin (demoCartDb.cart.filter
          (fun c => demoCartDb.products.any (fun p => p.id == c.product_id)))
          demoCartDb.products 7 :=
  ⟨(get_cart_inner_join "postgres" 7 demoCartDb).1,
   (get_cart_inner_join "postgres" 7 demoCartDb).2.1
     (cartRow ⟨4, 7, 3, 2⟩ ⟨3, "Mug", "kitchen", 5, "mug.png"⟩) (by decide),
   (get_cart_inner_join "postgres" 7 demoCartDb).2.2⟩

/-- Python truthiness of `some n` reduces to `n` being nonzero. -/
theorem truthyNat_some {n : Nat} (h : n ≠ 0) : truthyNat (some n) = true := by
  simp [truthyNat, h]

/-- In a split `l1 ++ c :: l2` whose mapped ids have no duplicates, no element
of `l1` or `l2` shares `c`'s id. -/
theorem id_ne_of_nodup_split (l1 l2 : List CartItem) (c : CartItem)
    (h : ((l1 ++ c :: l2).map (fun r => r.id)).Nodup) :
    (∀ x ∈ l1, x.id ≠ c.id) ∧ (∀ x ∈ l2, x.id ≠ c.id) := by
  rw [List.map_append, List.map_cons, List.nodup_append] at h
  obtain ⟨h1, h2, hdisj⟩ := h
  rw [List.nodup_cons] at h2
  constructor
  · intro x hx hxc
    exact hdisj (List.mem_map_of_mem _ hx) (by simp [hxc])
  · intro x hx hxc
    exact h2.1 (by rw [← hxc]; exact List.mem_map_of_mem _ hx)

/-- The `UPDATE cart SET quantity = v WHERE id = c.id` write, modelled as a
map over all rows, touches exactly the distinguished row when ids are unique
in the table. -/
theorem map_update_by_id (l1 l2 : List CartItem) (c : CartItem)
    (g : CartItem → CartItem)
    (h1 : ∀ x ∈ l1, x.id ≠ c.id) (h2 : ∀ x ∈ l2, x.id ≠ c.id) :
    (l1 ++ c :: l2).map (fun r => if r.id == c.id then g r else r)
      = l1 ++ g c :: l2 := by
  rw [List.map_append, List.map_cons]
  have e1 : l1.map (fun r => if r.id == c.id then g r else r) = l1 := by
    conv_rhs => rw [← List.map_id l1]
    apply List.map_congr_left
    intro x hx
    simp [h1 x hx]
  have e2 : l2.map (fun r => if r.id == c.id then g r else r) = l2 := by
    conv_rhs => rw [← List.map_id l2]
    apply List.map_congr_left
    intro x hx
    simp [h2 x hx]
  rw [e1, e2]
  simp

/-- C1: addToCart with both ids present merges or inserts.  When a cart row
for `(u, p)` exists the cart keeps the same rows except that this row's
quantity becomes the existing quantity plus the given one (no new row); when
none exists, exactly the one new row with the given quantity is appended; and
adding 2 then 3 for a fresh pair leaves exactly one `(u, p)` row, with
quantity 5. -/
theorem add_to_cart_upsert (url : String) (u p : Nat) (q : Int) (db : DB)
    (hu : u ≠ 0) (hp : p ≠ 0)
    (hnodup : (db.cart.map (fun c => c.id)).Nodup)
    (hfresh : ∀ c ∈ db.cart, c.id < db.nextId) :
    (∀ c, db.cart.find? (fun r => r.user_id == u && r.product_id == p) = some c →
      ∃ l1 l2, db.cart = l1 ++ c :: l2 ∧
        (add_to_cart (some url) (some u) (some p) (some q) none db).db.cart
          = l1 ++ { c with quantity := c.quantity + q } :: l2) ∧
    (db.cart.find? (fun r => r.user_id == u && r.product_id == p) = none →
      (add_to_cart (some url) (some u) (some p) (some q) none db).db.cart
        = db.cart ++ [⟨db.nextId, u, p, q⟩]) ∧
    (db.cart.find? (fun r => r.user_id == u && r.product_id == p) = none →
      ((add_to_cart (some url) (some u) (some p) (some 3) none
          (add_to_cart (some url) (some u) (some p) (some 2) none db).db).db.cart.filter
          (fun r => r.user_id == u && r.product_id == p))
        = [⟨db.nextId, u, p, 5⟩]) := by
  have tu := truthyNat_some hu
  have tp := truthyNat_some hp
  refine ⟨fun c hfind => ?_, fun hnone => ?_, fun hnone => ?_⟩
  · obtain ⟨hpred, l1, l2, heq, hbefore⟩ := List.find?_eq_some.mp hfind
    obtain ⟨h1, h2⟩ := id_ne_of_nodup_split l1 l2 c (heq ▸ hnodup)
    refine ⟨l1, l2, heq, ?_⟩
    have hres : (add_to_cart (some url) (some u) (some p) (some q) none db).db.cart
        = db.cart.map (fun r =>
            if r.id == c.id then { r with quantity := c.quantity + q } else r) := by
      simp [add_to_cart, tu, tp, get_db_connection, hfind]
    rw [hres, heq, map_update_by_id l1 l2 c _ h1 h2]
  · simp [add_to_cart, tu, tp, get_db_connection, hnone]
  · have hdb1 : (add_to_cart (some url) (some u) (some p) (some 2) none db).db
        = { db with cart := db.cart ++ [⟨db.nextId, u, p, (2 : Int)⟩],
                    nextId := db.nextId + 1 } := by
      simp [add_to_cart, tu, tp, get_db_connection, hnone]
    rw [hdb1]
    have hfind2 : (db.cart ++ [(⟨db.nextId, u, p, (2 : Int)⟩ : CartItem)]).find?
        (fun r => r.user_id == u && r.product_id == p)
        = some ⟨db.nextId, u, p, (2 : Int)⟩ := by
      rw [List.find?_append, hnone]
      simp [List.find?]
    have hres : (add_to_cart (some url) (some u) (some p) (some 3) none
        { db with cart := db.cart ++ [⟨db.nextId, u, p, (2 : Int)⟩],
                  nextId := db.nextId + 1 }).db.cart
        = (db.cart ++ [(⟨db.nextId, u, p, (2 : Int)⟩ : CartItem)]).map (fun r =>
            if r.id == db.nextId then { r with quantity := (2 : Int) + 3 } else r) := by
      simp [add_to_cart, tu, tp, get_db_connection, hfind2]
    rw [hres]
    have hupd := map_update_by_id db.cart [] ⟨db.nextId, u, p, (2 : Int)⟩
      (fun r => { r with quantity := (2 : Int) + 3 })
      (fun x hx => Nat.ne_of_lt (hfresh x hx)) (by intro x hx; cases hx)
    rw [hupd]
    rw [List.filter_append]
    have hnil : db.cart.filter (fun r => r.user_id == u && r.product_id == p)
        = [] := by
      rw [List.filter_eq_nil_iff]
      exact List.find?_eq_none.mp hnone
    rw [hnil]
    simp

/-- C1 witness: on `demoDb` (empty cart), adding quantity 2 then 3 for user 7
and product 3 leaves exactly one `(7, 3)` cart row, with quantity 5. -/
theorem add_to_cart_upsert_witness :
    ((add_to_cart (some "postgres") (some 7) (some 3) (some 3) none
        (add_to_cart (some "postgres") (some 7) (some 3) (some 2) none
          demoDb).db).db.cart.filter
        (fun r => r.user_id == 7 && r.product_id == 3))
      = [⟨10, 7, 3, 5⟩] :=
  (add_to_cart_upsert "postgres" 7 3 2 demoDb (by decide) (by decide)
    (by decide) (by decide)).2.2 (by decide)

/-- A trace releases every acquired connection: a handler either never opened
a connection, or closed the one connection it opened as its final action. -/
def releasedAll (t : List Event) : Prop :=
  t = [] ∨ t = [Event.acquire, Event.close]

/-- C5: every handler, on every exit path — success, handled error response,
or propagated exception (injected fault, bad credentials, missing keys,
connection failure) — releases the database connection it acquired. -/
theorem connection_always_released (env : Option String) (crypto : Crypto)
    (a b c : Option String) (q : Option Int) (n m : Option Nat)
    (pr : Option Rat) (g1 g2 : Bool) (fault : Option String) (db : DB) :
    releasedAll (home db).trace ∧
    releasedAll (signup env crypto a b c fault db).trace ∧
    releasedAll (login env crypto a b fault db).trace ∧
    releasedAll (get_products env a fault db).trace ∧
    releasedAll (add_to_cart env n m q fault db).trace ∧
    releasedAll (get_cart env n fault db).trace ∧
    releasedAll (admin_login env crypto a b fault db).trace ∧
    releasedAll (admin_stats env fault db).trace ∧
    releasedAll (manage_product env g1 a b pr c n fault db).trace ∧
    releasedAll (manage_orders env g2 n a fault db).trace := by
  refine ⟨Or.inl rfl, ?_, ?_, ?_, ?_, ?_, ?_, ?_, ?_, ?_⟩ <;>
    (cases env <;>
      (simp only [signup, login, get_products, add_to_cart, get_cart,
        admin_login, admin_stats, manage_product, manage_orders,
        get_db_connection, checkPasswordHash, releasedAll]) <;>
      (repeat' split) <;> simp)

/-- C6 (amended): a non-duplicate persistence failure in signup answers 500
with the fixed generic body, the failure message is logged server-side and
does not appear in the response, and the database is unchanged; but a
persistence failure in createProduct or deleteProduct answers 500 with the
exception's own message in the response body, and nothing is logged. -/
theorem storage_error_responses (url : String) (crypto : Crypto)
    (name email password : Option String) (msg : String) (db : DB)
    (hn : truthyStr name = true) (he : truthyStr email = true)
    (hp : truthyStr password = true) :
    ((signup (some url) crypto name email password (some msg) db).result
        = .ok ⟨.obj [("error", .s "Signup failed")], 500⟩ ∧
      (signup (some url) crypto name email password (some msg) db).log
        = ["Error: " ++ msg] ∧
      (signup (some url) crypto name email password (some msg) db).db = db) ∧
    (∀ (nm cat : String) (prc : Rat) (img : String),
      (manage_product (some url) true (some nm) (some cat) (some prc) (some img)
          none (some msg) db).result = .ok ⟨.obj [("error", .s msg)], 500⟩ ∧
      (manage_product (some url) true (some nm) (some cat) (some prc) (some img)
          none (some msg) db).log = []) ∧
    (∀ delId : Option Nat,
      (manage_product (some url) false none none none none delId
          (some msg) db).result = .ok ⟨.obj [("error", .s msg)], 500⟩ ∧
      (manage_product (some url) false none none none none delId
          (some msg) db).log = []) := by
  refine ⟨⟨?_, ?_, ?_⟩, fun nm cat prc img => ⟨?_, ?_⟩,
    fun delId => ⟨?_, ?_⟩⟩ <;>
    simp [signup, manage_product, get_db_connection, hn, he, hp]

/-- C6 witness: a concrete fault message is hidden and logged by signup but
returned unlogged by createProduct and deleteProduct. -/
theorem storage_error_responses_witness :
    ((signup (some "postgres") demoCrypto (some "Carol") (some "new@shop.com")
        (some "pw") (some "disk full") demoDb).result
        = .ok ⟨.obj [("error", .s "Signup failed")], 500⟩ ∧
      (signup (some "postgres") demoCrypto (some "Carol") (some "new@shop.com")
        (some "pw") (some "disk full") demoDb).log = ["Error: " ++ "disk full"] ∧
      (signup (some "postgres") demoCrypto (some "Carol") (some "new@shop.com")
        (some "pw") (some "disk full") demoDb).db = demoDb) ∧
    ((manage_product (some "postgres") true (some "Mug") (some "kitchen")
        (some 5) (some "mug.png") none (some "disk full") demoDb).result
        = .ok ⟨.obj [("error", .s "disk full")], 500⟩ ∧
      (manage_product (some "postgres") true (some "Mug") (some "kitchen")
        (some 5) (some "mug.png") none (some "disk full") demoDb).log = []) ∧
    ((manage_product (some "postgres") false none none none none (some 3)
        (some "disk full") demoDb).result
        = .ok ⟨.obj [("error", .s "disk full")], 500⟩ ∧
      (manage_product (some "postgres") false none none none none (some 3)
        (some "disk full") demoDb).log = []) :=
  ⟨(storage_error_responses "postgres" demoCrypto (some "Carol")
      (some "new@shop.com") (some "pw") "disk full" demoDb
      (by decide) (by decide) (by decide)).1,
   (storage_error_responses "postgres" demoCrypto (some "Carol")
      (some "new@shop.com") (some "pw") "disk full" demoDb
      (by decide) (by decide) (by decide)).2.1 "Mug" "kitchen" 5 "mug.png",
   (storage_error_responses "postgres" demoCrypto (some "Carol")
      (some "new@shop.com") (some "pw") "disk full" demoDb
      (by decide) (by decide) (by decide)).2.2 (some 3)⟩

/-- C6 counterexample: a createProduct persistence failure with message "boom"
returns that message verbatim in the 500 response body — not a fixed generic
message — and logs nothing server-side. -/
theorem manage_product_error_disclosure :
    (manage_product (some "postgres") true (some "Mug") (some "kitchen")
        (some 5) (some "mug.png") none (some "boom") demoDb).result
      = .ok ⟨.obj [("error", .s "boom")], 500⟩ ∧
    (manage_product (some "postgres") true (some "Mug") (some "kitchen")
        (some 5) (some "mug.png") none (some "boom") demoDb).log = [] := by
  constructor <;> rfl

end HaksShop
